import Mathlib

/-!
Verification model of palantir/python-jsonrpc-server.

Shallow embedding of:
  - the JSON value model the library manipulates (Python dicts/lists/str/int/bool/None),
  - the framed-message stream reader and writer (src/pyls_jsonrpc/streams.py and
    src/jsonrpc/streams.py),
  - the JSON-RPC Endpoint (src/pyls_jsonrpc/endpoint.py).

Python dicts are modelled as insertion-ordered association lists (CPython 3.7+
dicts preserve insertion order, which is also the key order json.dumps emits).
A Python exception escaping a call is modelled with Except.
-/

/-- JSON values as the library manipulates them (Python objects produced by
json.loads / fed to json.dumps).  Numbers are restricted to integers: every
numeric literal appearing in the repository code, its tests and the spec
scenarios is integral. -/
inductive Json where
  | null : Json
  | bool : Bool → Json
  | num : Int → Json
  | str : String → Json
  | arr : List Json → Json
  | obj : List (String × Json) → Json
deriving Repr

/-- A JSON-RPC message: a Python dict with string keys, as an insertion-ordered
association list. -/
abbrev Message := List (String × Json)

/-- Python `d.get(k)` on a dict with string keys (`none` models the key being
absent / `None` returned). -/
def getKey (m : Message) (k : String) : Option Json :=
  match m with
  | [] => none
  | kv :: rest => if kv.1 = k then some kv.2 else getKey rest k

/-- Python `d.get(k)` as its value is consumed downstream: an explicit JSON
null value is returned as Python None, indistinguishable from an absent key —
so code that tests `... is not None` (endpoint.py 269) or passes the value on
sees `none` for both.  Key-presence tests (`'id' not in message`) and
subscripts (`message['method']`) use `getKey` instead, which keeps the raw
value. -/
def getVal (m : Message) (k : String) : Option Json :=
  match getKey m k with
  | some Json.null => none
  | v => v

mutual
/-- Python `==` on JSON values. -/
def jsonBEq : Json → Json → Bool
  | .null, .null => true
  | .bool a, .bool b => a == b
  | .num a, .num b => a == b
  | .str a, .str b => a == b
  | .arr xs, .arr ys => jsonListBEq xs ys
  | .obj xs, .obj ys => jsonObjBEq xs ys
  | _, _ => false
/-- Elementwise equality of JSON arrays. -/
def jsonListBEq : List Json → List Json → Bool
  | [], [] => true
  | x :: xs, y :: ys => jsonBEq x y && jsonListBEq xs ys
  | _, _ => false
/-- Pairwise equality of JSON objects (dict equality is order-insensitive in
Python; the library only ever compares objects built in matching order, so
ordered comparison is faithful where it is used). -/
def jsonObjBEq : List (String × Json) → List (String × Json) → Bool
  | [], [] => true
  | (k, v) :: xs, (l, w) :: ys => k == l && jsonBEq v w && jsonObjBEq xs ys
  | _, _ => false
end

/-- UTF-8 encoding of one character, as byte values. -/
def charUtf8Bytes (c : Char) : List Nat :=
  let n := c.toNat
  if n < 0x80 then [n]
  else if n < 0x800 then [0xC0 + n / 64, 0x80 + n % 64]
  else if n < 0x10000 then [0xE0 + n / 4096, 0x80 + (n / 64) % 64, 0x80 + n % 64]
  else [0xF0 + n / 262144, 0x80 + (n / 4096) % 64, 0x80 + (n / 64) % 64, 0x80 + n % 64]

/-- Python `len(s.encode('utf-8'))`: the byte length of a string after UTF-8
encoding (not its character count). -/
def utf8Len (s : String) : Nat :=
  s.data.foldl (fun n c => n + (charUtf8Bytes c).length) 0

/-- Python `s.encode('utf-8')`: the UTF-8 bytes of a string. -/
def strToBytes (s : String) : List Nat :=
  s.data.foldl (fun bs c => bs ++ charUtf8Bytes c) []

/-- Whether a byte is a UTF-8 continuation byte. -/
def contByte (b : Nat) : Bool := 0x80 ≤ b && b < 0xC0

/-- Fueled UTF-8 decoding loop; `none` models UnicodeDecodeError. -/
def utf8DecodeAux : Nat → List Nat → List Char → Option (List Char)
  | _, [], acc => some acc.reverse
  | 0, _ :: _, _ => none
  | fuel + 1, b :: bs, acc =>
    if b < 0x80 then utf8DecodeAux fuel bs (Char.ofNat b :: acc)
    else if 0xC2 ≤ b && b < 0xE0 then
      match bs with
      | b2 :: rest =>
        if contByte b2 then
          utf8DecodeAux fuel rest (Char.ofNat ((b - 0xC0) * 64 + (b2 - 0x80)) :: acc)
        else none
      | [] => none
    else if 0xE0 ≤ b && b < 0xF0 then
      match bs with
      | b2 :: b3 :: rest =>
        if contByte b2 && contByte b3 then
          utf8DecodeAux fuel rest
            (Char.ofNat ((b - 0xE0) * 4096 + (b2 - 0x80) * 64 + (b3 - 0x80)) :: acc)
        else none
      | _ => none
    else if 0xF0 ≤ b && b < 0xF5 then
      match bs with
      | b2 :: b3 :: b4 :: rest =>
        if contByte b2 && contByte b3 && contByte b4 then
          utf8DecodeAux fuel rest
            (Char.ofNat ((b - 0xF0) * 262144 + (b2 - 0x80) * 4096 +
              (b3 - 0x80) * 64 + (b4 - 0x80)) :: acc)
        else none
      | _ => none
    else none

/-- Python `bs.decode('utf-8')`; `none` models UnicodeDecodeError (a subclass
of ValueError).  Overlong/surrogate rejection is not modelled; every input the
claims exercise is plain ASCII. -/
def utf8Decode (bs : List Nat) : Option String :=
  (utf8DecodeAux (bs.length + 1) bs []).map fun cs => ⟨cs⟩

/-- Opening brace character. -/
def lbrace : Char := Char.ofNat 123

/-- Closing brace character. -/
def rbrace : Char := Char.ofNat 125

mutual
/-- Compact JSON serialization: `json.dumps` with separators `(",", ":")`,
which is what ujson (the serializer the streams module prefers) emits by
default. -/
def dumps : Json → String
  | .null => "null"
  | .bool true => "true"
  | .bool false => "false"
  | .num n => toString n
  | .str s => "\"" ++ s ++ "\""
  | .arr xs => "[" ++ dumpsList xs ++ "]"
  | .obj kvs => "\x7b" ++ dumpsObj kvs ++ "\x7d"
/-- Serialize array elements, comma separated. -/
def dumpsList : List Json → String
  | [] => ""
  | [x] => dumps x
  | x :: xs => dumps x ++ "," ++ dumpsList xs
/-- Serialize object members, comma separated. -/
def dumpsObj : List (String × Json) → String
  | [] => ""
  | [(k, v)] => "\"" ++ k ++ "\":" ++ dumps v
  | (k, v) :: kvs => "\"" ++ k ++ "\":" ++ dumps v ++ "," ++ dumpsObj kvs
end

/-- JSON whitespace skipping. -/
def skipWs : List Char → List Char
  | [] => []
  | c :: cs => if c = ' ' || c = '\t' || c = '\n' || c = '\r' then skipWs cs else c :: cs

/-- Hex digit value. -/
def hexVal (c : Char) : Option Nat :=
  if '0' ≤ c && c ≤ '9' then some (c.toNat - 48)
  else if 'a' ≤ c && c ≤ 'f' then some (c.toNat - 87)
  else if 'A' ≤ c && c ≤ 'F' then some (c.toNat - 55)
  else none

/-- Numeric value of a digit list. -/
def natOfDigits (ds : List Char) : Nat :=
  ds.foldl (fun n c => n * 10 + (c.toNat - 48)) 0

/-- Parse a JSON number (integer form; the repository and its tests only use
integral literals, so fraction/exponent forms are left unparsed). -/
def parseNumber (cs : List Char) : Option (Json × List Char) :=
  let signed := match cs with
    | c :: r => if c = '-' then (true, r) else (false, cs)
    | [] => (false, cs)
  let digits := signed.2.takeWhile (fun c => c.isDigit)
  let rest := signed.2.dropWhile (fun c => c.isDigit)
  if digits.isEmpty then none
  else
    let n : Int := (natOfDigits digits : Nat)
    some (Json.num (if signed.1 then -n else n), rest)

/-- Parse the body of a JSON string after the opening quote. -/
def parseStringAux : Nat → List Char → List Char → Option (String × List Char)
  | 0, _, _ => none
  | _, [], _ => none
  | fuel + 1, c :: cs, acc =>
    if c = '"' then some (⟨acc.reverse⟩, cs)
    else if c = '\\' then
      match cs with
      | [] => none
      | e :: cs2 =>
        if e = '"' then parseStringAux fuel cs2 ('"' :: acc)
        else if e = '\\' then parseStringAux fuel cs2 ('\\' :: acc)
        else if e = '/' then parseStringAux fuel cs2 ('/' :: acc)
        else if e = 'b' then parseStringAux fuel cs2 (Char.ofNat 8 :: acc)
        else if e = 'f' then parseStringAux fuel cs2 (Char.ofNat 12 :: acc)
        else if e = 'n' then parseStringAux fuel cs2 ('\n' :: acc)
        else if e = 'r' then parseStringAux fuel cs2 ('\r' :: acc)
        else if e = 't' then parseStringAux fuel cs2 ('\t' :: acc)
        else if e = 'u' then
          match cs2 with
          | h1 :: h2 :: h3 :: h4 :: cs3 =>
            match hexVal h1, hexVal h2, hexVal h3, hexVal h4 with
            | some a, some b, some c3, some d =>
              parseStringAux fuel cs3 (Char.ofNat (a * 4096 + b * 256 + c3 * 16 + d) :: acc)
            | _, _, _, _ => none
          | _ => none
        else none
    else parseStringAux fuel cs (c :: acc)

/-- Python dict insertion `d[k] = v`: overwrite in place if present, else
append. -/
def dictInsert (kvs : List (String × Json)) (k : String) (v : Json) :
    List (String × Json) :=
  match kvs with
  | [] => [(k, v)]
  | kv :: rest => if kv.1 = k then (k, v) :: rest else kv :: dictInsert rest k v

/-- Check that the given characters follow, returning the remainder. -/
def expectChars : List Char → List Char → Option (List Char)
  | [], cs => some cs
  | e :: es, c :: cs => if c = e then expectChars es cs else none
  | _ :: _, [] => none

mutual
/-- Recursive-descent JSON value parser (the model of `json.loads`), fueled. -/
def parseValue : Nat → List Char → Option (Json × List Char)
  | 0, _ => none
  | fuel + 1, cs =>
    match skipWs cs with
    | [] => none
    | c :: cs1 =>
      if c = lbrace then
        match skipWs cs1 with
        | c2 :: cs2 =>
          if c2 = rbrace then some (Json.obj [], cs2)
          else parseMembers fuel (c2 :: cs2) []
        | [] => none
      else if c = '[' then
        match skipWs cs1 with
        | c2 :: cs2 =>
          if c2 = ']' then some (Json.arr [], cs2)
          else parseElements fuel (c2 :: cs2) []
        | [] => none
      else if c = '"' then
        match parseStringAux (fuel + 1) cs1 [] with
        | some (s, rest) => some (Json.str s, rest)
        | none => none
      else if c = 't' then
        (expectChars ['r', 'u', 'e'] cs1).map fun rest => (Json.bool true, rest)
      else if c = 'f' then
        (expectChars ['a', 'l', 's', 'e'] cs1).map fun rest => (Json.bool false, rest)
      else if c = 'n' then
        (expectChars ['u', 'l', 'l'] cs1).map fun rest => (Json.null, rest)
      else if c = '-' || c.isDigit then parseNumber (c :: cs1)
      else none
/-- Parse the members of a nonempty JSON object. -/
def parseMembers : Nat → List Char → List (String × Json) →
    Option (Json × List Char)
  | 0, _, _ => none
  | fuel + 1, cs, acc =>
    match skipWs cs with
    | [] => none
    | c :: cs1 =>
      if c = '"' then
        match parseStringAux (fuel + 1) cs1 [] with
        | some (k, r1) =>
          match skipWs r1 with
          | ':' :: r2 =>
            match parseValue fuel r2 with
            | some (v, r3) =>
              match skipWs r3 with
              | ',' :: r4 => parseMembers fuel r4 (dictInsert acc k v)
              | c2 :: r4 =>
                if c2 = rbrace then some (Json.obj (dictInsert acc k v), r4) else none
              | [] => none
            | none => none
          | _ => none
        | none => none
      else none
/-- Parse the elements of a nonempty JSON array. -/
def parseElements : Nat → List Char → List Json → Option (Json × List Char)
  | 0, _, _ => none
  | fuel + 1, cs, acc =>
    match parseValue fuel cs with
    | some (v, r1) =>
      match skipWs r1 with
      | ',' :: r2 => parseElements fuel r2 (acc ++ [v])
      | ']' :: r2 => some (Json.arr (acc ++ [v]), r2)
      | _ => none
    | none => none
end

/-- Python `json.loads` on a decoded string; `none` models ValueError.  Like
json.loads, trailing non-whitespace makes the whole parse fail. -/
def loads (s : String) : Option Json :=
  match parseValue (s.length + 1) s.data with
  | some (j, rest) => if (skipWs rest).isEmpty then some j else none
  | none => none

/-- Python exceptions that the modelled code can raise out of a call. -/
inductive PyErr where
  | keyError (k : String)
  | typeError
  | valueError
  | nameError
  | invalidState
  | fuelExhausted
deriving Repr, DecidableEq

/-- The readable byte stream (asyncio.StreamReader over a finite input that is
followed by EOF). -/
structure RFile where
  data : List Nat
deriving Repr

/-- Split off one line: up to and including the first 0x0A byte, or the whole
remainder if there is none (the semantics of readline on a byte stream). -/
def splitLine : List Nat → List Nat × List Nat
  | [] => ([], [])
  | b :: bs =>
    if b = 10 then ([b], bs)
    else
      let r := splitLine bs
      (b :: r.1, r.2)

/-- `await rfile.readline()`. -/
def readline (f : RFile) : List Nat × RFile :=
  let r := splitLine f.data
  (r.1, ⟨r.2⟩)

/-- `await rfile.read(n)`. -/
def readBytes (n : Nat) (f : RFile) : List Nat × RFile :=
  (f.data.take n, ⟨f.data.drop n⟩)

/-- `rfile.at_eof()`: the input is exhausted (EOF fed, buffer empty). -/
def atEof (f : RFile) : Bool := f.data.isEmpty

/-- ASCII whitespace for `bytes.strip()`. -/
def isWsByte (b : Nat) : Bool := b = 9 || b = 10 || b = 11 || b = 12 || b = 13 || b = 32

/-- Python `line.strip()` on bytes. -/
def stripBytes (bs : List Nat) : List Nat :=
  ((bs.dropWhile isWsByte).reverse.dropWhile isWsByte).reverse

/-- Bytes of the header prefix b'Content-Length: '. -/
def clHeader : List Nat := strToBytes "Content-Length: "

/-- Whether `pat` is an initial segment of `l`. -/
def listStartsWith : List Nat → List Nat → Bool
  | [], _ => true
  | _ :: _, [] => false
  | a :: as_, b :: bs => a = b && listStartsWith as_ bs

/-- Whether `pat` (assumed nonempty) occurs anywhere inside `l`. -/
def hasSub : List Nat → List Nat → Bool
  | [], _ => false
  | b :: bs, pat => listStartsWith pat (b :: bs) || hasSub bs pat

/-- Decimal digits only, as `int()` accepts for the header value (sign forms
never occur on this header in practice and are left unmodelled). -/
def parseNatDec (bs : List Nat) : Option Nat :=
  if bs.isEmpty || bs.any (fun b => b < 48 || 57 < b) then none
  else some (bs.foldl (fun n b => n * 10 + (b - 48)) 0)

/-- JsonRpcStreamReader._content_length (src/pyls_jsonrpc/streams.py 75-87):
extract the content length from a header line.  `.error` models a ValueError
escaping the call — either the two-element unpack of line.split failing, or the
re-raised invalid-header error from `int(value)`. -/
def content_length (line : List Nat) : Except Unit (Option Nat) :=
  if listStartsWith clHeader line then
    let value0 := line.drop clHeader.length
    if hasSub value0 clHeader then .error ()
    else
      match parseNatDec (stripBytes value0) with
      | some n => .ok (some n)
      | none => .error ()
  else .ok none

/-- The header-skipping loop of _read_message: `while line and line.strip():
line = await rfile.readline()`. -/
def skipHeaderLines : Nat → List Nat → RFile → List Nat × RFile
  | 0, line, f => (line, f)
  | fuel + 1, line, f =>
    if !line.isEmpty && !(stripBytes line).isEmpty then
      let r := readline f
      skipHeaderLines fuel r.1 r.2
    else (line, f)

/-- JsonRpcStreamReader._read_message (src/pyls_jsonrpc/streams.py 51-73).
Returns the message body, `none` for EOF before/inside the headers, or a raised
exception: ValueError from _content_length, or TypeError from
`rfile.read(None)` when the headers carried no Content-Length. -/
def read_message (f : RFile) : Except PyErr (Option (List Nat)) × RFile :=
  let r0 := readline f
  let line := r0.1
  if line.isEmpty then (.ok none, r0.2)
  else
    match content_length line with
    | .error _ => (.error .valueError, r0.2)
    | .ok clen =>
      let r1 := skipHeaderLines (r0.2.data.length + 1) line r0.2
      if r1.1.isEmpty then (.ok none, r1.2)
      else
        match clen with
        | none => (.error .typeError, r1.2)
        | some n =>
          let r2 := readBytes n r1.2
          (.ok (some r2.1), r2.2)

/-- One pass over a successfully read body: `json.loads(body.decode('utf-8'))`
handed to the consumer.  Decode errors (UnicodeDecodeError) and parse errors
are ValueError, caught by the `except ValueError` around the consumer call, so
the body is skipped.  Returns the consumer invocations so far. -/
def consumeBody (acc : List Json) (r : List Nat) : List Json :=
  match utf8Decode r with
  | none => acc
  | some s =>
    match loads s with
    | none => acc
    | some j => acc ++ [j]

/-- JsonRpcStreamReader.listen (src/pyls_jsonrpc/streams.py 25-49), fueled.
`acc` is the list of values the consumer has been invoked with; `prev` is the
current binding of the local `request_str` (`none` while still unbound — the
except-ValueError path falls through without assigning it, so on the first
iteration this is a NameError, and on later iterations the stale previous body
is re-processed). -/
def listenAux : Nat → List Json → Option (List Nat) → RFile → Except PyErr (List Json)
  | 0, _, _, _ => .error .fuelExhausted
  | fuel + 1, acc, prev, f =>
    if atEof f then .ok acc
    else
      match read_message f with
      | (.error .valueError, f1) =>
        if atEof f1 then .ok acc
        else
          match prev with
          | none => .error .nameError
          | some r => listenAux fuel (consumeBody acc r) (some r) f1
      | (.error e, _) => .error e
      | (.ok none, _) => .ok acc
      | (.ok (some r), f1) => listenAux fuel (consumeBody acc r) (some r) f1

/-- Drive JsonRpcStreamReader.listen over the whole input.  The result is the
sequence of messages the consumer was invoked with, or the exception listen
raised. -/
def listen (f : RFile) : Except PyErr (List Json) :=
  listenAux (f.data.length + 2) [] none f

/-- The framed response string built by JsonRpcStreamWriter.write
(src/jsonrpc/streams.py 103-122): Content-Length is the UTF-8 byte length of
the serialized body, not its character count. -/
def writeFrame (dumpFn : Json → String) (message : Json) : String :=
  let body := dumpFn message
  let content_len := utf8Len body
  "Content-Length: " ++ toString content_len ++
    "\r\nContent-Type: application/vscode-jsonrpc; charset=utf8\r\n\r\n" ++ body

/-- Bytes emitted for one message by the synchronous JsonRpcStreamWriter.write
(src/jsonrpc/streams.py) on an open stream, with the compact serializer. -/
def writerWrite (message : Json) : List Nat :=
  strToBytes (writeFrame dumps message)

/-- Bytes emitted by the asyncio JsonRpcStreamWriter.write
(src/pyls_jsonrpc/streams.py 103-127).  The code computes
`body = await loop.run_in_executor(None, json.dumps(message, **args))`:
run_in_executor expects a callable but receives the already-computed string, so
awaiting it raises TypeError('str' object is not callable), which the broad
`except Exception` swallows after logging — no bytes reach the stream for any
message. -/
def asyncWriterWrite (_message : Json) : List Nat := []

/-- Modelled from the spec: the repository module pyls_jsonrpc/exceptions.py is
not present under src/ (only its importers and tests are).  Per spec §3, §4.C
and §7, a typed JSON-RPC error carries `code`, `message` and optional `data`. -/
structure RpcError where
  code : Int
  message : String
  data : Option Json
deriving Repr

/-- Modelled from the spec: JsonRpcException.to_dict — the wire layout
\x7b"code": int, "message": string, "data"?: any\x7d of §6. -/
def RpcError.to_dict (e : RpcError) : Json :=
  Json.obj ([("code", Json.num e.code), ("message", Json.str e.message)] ++
    (match e.data with
     | some d => [("data", d)]
     | none => []))

/-- Modelled from the spec: JsonRpcException.from_dict — deserialize a wire
error object; unknown codes deserialize to a generic error carrying the
original code (spec §4.C round-trip law). -/
def RpcError.from_dict (d : Json) : RpcError :=
  match d with
  | Json.obj kvs =>
    { code := match getKey kvs "code" with
        | some (Json.num n) => n
        | _ => 0,
      message := match getKey kvs "message" with
        | some (Json.str s) => s
        | _ => "",
      data := getKey kvs "data" }
  | _ => { code := 0, message := "", data := none }

/-- Modelled from the spec: JsonRpcRequestCancelled, code -32800 (§7). -/
def JsonRpcRequestCancelled : RpcError :=
  { code := -32800, message := "Request Cancelled", data := none }

/-- Modelled from the spec: JsonRpcInvalidParams, code -32602, message per
scenario S6 (§8). -/
def JsonRpcInvalidParams : RpcError :=
  { code := -32602, message := "Invalid params", data := none }

/-- Modelled from the spec: JsonRpcMethodNotFound.of(method), code -32601 (§7:
dispatcher lookup fails for an inbound request). -/
def JsonRpcMethodNotFound.of (method : Json) : RpcError :=
  { code := -32601, message := "Method Not Found: " ++ dumps method, data := none }

/-- Modelled from the spec: JsonRpcInternalError.of(sys.exc_info()), code
-32603, whose data carries a textual description of the uncaught exception
(§4.C); `name` stands for that exception text. -/
def JsonRpcInternalError.of (name : String) : RpcError :=
  { code := -32603, message := name, data := some (Json.str name) }

/-- Eventual outcome of running a handler body (or its spawned task) to
completion. -/
inductive Outcome where
  | ok (v : Json)
  | rpcErr (e : RpcError)
  | exn (name : String)
deriving Repr

/-- What `handler(params)` does, covering every shape Endpoint._handle_request
and _handle_notification distinguish: return a plain value, raise a
JsonRpcException, raise any other exception, or return a
callable/coroutine/future whose eventual outcome is `o`. -/
inductive HandlerBehavior where
  | retVal (v : Json)
  | raiseRpc (e : RpcError)
  | raiseOther (name : String)
  | retAsync (o : Outcome)

/-- The dispatcher: a dict from method name to handler function. -/
abbrev Dispatcher := List (String × (Option Json → HandlerBehavior))

/-- State of one outbound request future (asyncio.Future). -/
inductive FutureState where
  | pending
  | resolved (v : Json)
  | rejected (e : RpcError)
  | cancelled
deriving Repr

/-- Dict lookup keyed by strings, first match. -/
def lookupS {α : Type} : List (String × α) → String → Option α
  | [], _ => none
  | kv :: kvs, k => if kv.1 = k then some kv.2 else lookupS kvs k

/-- In-place update of the value stored under an existing string key. -/
def setS {α : Type} : List (String × α) → String → α → List (String × α)
  | [], _, _ => []
  | kv :: kvs, k, v => if kv.1 = k then (k, v) :: kvs else kv :: setS kvs k v

/-- Python `d.pop(k, None)`: drop the entry under `k` if present. -/
def removeS {α : Type} : List (String × α) → String → List (String × α)
  | [], _ => []
  | kv :: kvs, k => if kv.1 = k then kvs else kv :: removeS kvs k

/-- Python dict assignment `d[k] = v`. -/
def storeS {α : Type} (kvs : List (String × α)) (k : String) (v : α) :
    List (String × α) :=
  match lookupS kvs k with
  | some _ => setS kvs k v
  | none => kvs ++ [(k, v)]

/-- Dict lookup keyed by JSON values (client request ids). -/
def lookupJ {α : Type} : List (Json × α) → Json → Option α
  | [], _ => none
  | kv :: kvs, k => if jsonBEq kv.1 k then some kv.2 else lookupJ kvs k

/-- Python `d.pop(k, None)` keyed by JSON values. -/
def removeJ {α : Type} : List (Json × α) → Json → List (Json × α)
  | [], _ => []
  | kv :: kvs, k => if jsonBEq kv.1 k then kvs else kv :: removeJ kvs k

/-- Python dict assignment keyed by JSON values. -/
def storeJ {α : Type} (kvs : List (Json × α)) (k : Json) (v : α) :
    List (Json × α) :=
  match lookupJ kvs k with
  | some _ => kvs.map (fun kv => if jsonBEq kv.1 k then (k, v) else kv)
  | none => kvs ++ [(k, v)]

/-- Mutable state of an Endpoint: the two in-flight request maps
(endpoint.py 47-48).  A client entry records the eventual outcome of the
pending inbound task; a server entry is the outbound future object itself. -/
structure EndpointState where
  client_request_futures : List (Json × Outcome)
  server_request_futures : List (String × FutureState)

/-- A fresh Endpoint: both maps empty. -/
def initState : EndpointState :=
  { client_request_futures := [], server_request_futures := [] }

/-- Result of one synchronous step of Endpoint code: the updated state, the
messages handed to the consumer (in order), and the completions applied to
outbound futures that were popped from the server map. -/
structure StepResult where
  st : EndpointState
  out : List Message
  completions : List (String × FutureState)

/-- Endpoint.notify (endpoint.py 54-69): build the notification message handed
to the consumer. -/
def notifyMessage (method : String) (params : Option Json) : Message :=
  [("jsonrpc", Json.str "2.0"), ("method", Json.str method)] ++
    (match params with
     | some p => [("params", p)]
     | none => [])

/-- Endpoint.request (endpoint.py 71-98): allocate an id via the id generator,
record a pending future in _server_request_futures, emit the request message,
and hand the future (identified here by its id) back to the caller. -/
def request (id_generator : String) (method : String) (params : Option Json)
    (st : EndpointState) : StepResult :=
  let msg_id := id_generator
  let message :=
    [("jsonrpc", Json.str "2.0"), ("id", Json.str msg_id),
     ("method", Json.str method)] ++
    (match params with
     | some p => [("params", p)]
     | none => [])
  { st := { st with
      server_request_futures := storeS st.server_request_futures msg_id .pending },
    out := [message], completions := [] }

/-- future.cancel() on the future returned by Endpoint.request, together with
the done-callback installed by Endpoint._cancel_callback (endpoint.py 100-110).
Cancelling a pending future marks it cancelled and the callback emits the
$/cancelRequest notification; cancel() on a completed future returns False and
does nothing.  Note that _cancel_callback does NOT remove the entry from
_server_request_futures. -/
def cancelFuture (msg_id : String) (st : EndpointState) : StepResult :=
  match lookupS st.server_request_futures msg_id with
  | some .pending =>
    { st := { st with
        server_request_futures := setS st.server_request_futures msg_id .cancelled },
      out := [notifyMessage "$/cancelRequest" (some (Json.obj [("id", Json.str msg_id)]))],
      completions := [] }
  | _ => { st := st, out := [], completions := [] }

/-- Endpoint._handle_response (endpoint.py 259-275): pop the future recorded
under the response id; absent ids are logged and ignored.  A popped future gets
set_exception if `error is not None` (line 269) and set_result(result)
otherwise — which raises InvalidStateError when the future is no longer
pending (it was cancelled).  `result` and `error` here are the message.get
values, so an explicit JSON null in the message has already arrived as Python
None (`none`): a response carrying error:null takes the set_result branch.
Unhashable ids (lists/dicts) make dict.pop raise TypeError. -/
def handle_response (msg_id : Json) (result error : Option Json)
    (st : EndpointState) : Except PyErr StepResult :=
  match msg_id with
  | .arr _ => .error .typeError
  | .obj _ => .error .typeError
  | .str s =>
    match lookupS st.server_request_futures s with
    | none => .ok ⟨st, [], []⟩
    | some fs =>
      let st1 := { st with
        server_request_futures := removeS st.server_request_futures s }
      match fs with
      | .pending =>
        match error with
        | some e => .ok ⟨st1, [], [(s, .rejected (RpcError.from_dict e))]⟩
        | none => .ok ⟨st1, [], [(s, .resolved (result.getD Json.null))]⟩
      | _ => .error .invalidState
  | _ => .ok ⟨st, [], []⟩

/-- Endpoint._handle_cancel_notification (endpoint.py 189-200): pop the client
request entry (regardless of whether the cancel will land); unknown ids are
logged and ignored.  `request_future.cancel()` is attempted on the popped task;
whether it lands is the scheduler's business — the done-callback of a task that
does get cancelled is a separate later step (see request_callback). -/
def handle_cancel_notification (msg_id : Json) (st : EndpointState) :
    Except PyErr StepResult :=
  match msg_id with
  | .arr _ => .error .typeError
  | .obj _ => .error .typeError
  | _ =>
    match lookupJ st.client_request_futures msg_id with
    | none => .ok ⟨st, [], []⟩
    | some _ =>
      .ok ⟨{ st with
        client_request_futures := removeJ st.client_request_futures msg_id }, [], []⟩

/-- Dispatcher lookup `self._dispatcher[method]`: KeyError when absent (also
for hashable non-string method values, which never equal a string key);
TypeError when the method value is unhashable (a list or a dict). -/
def dispLookup (dispatcher : Dispatcher) (method : Json) :
    Except PyErr (Option Json → HandlerBehavior) :=
  match method with
  | .arr _ => .error .typeError
  | .obj _ => .error .typeError
  | .str s =>
    match lookupS dispatcher s with
    | some h => .ok h
    | none => .error (.keyError s)
  | _ => .error (.keyError "non-string method")

/-- The exception carried out of Endpoint._handle_request, as discriminated by
the two except clauses of Endpoint.consume. -/
inductive Raised where
  | rpc (e : RpcError)
  | other (name : String)

/-- Endpoint._handle_request (endpoint.py 202-229).  Unknown method raises
JsonRpcMethodNotFound; a synchronous handler value is answered immediately
with a result message; a callable/coroutine/future handler result is spawned
and recorded in _client_request_futures with a done callback (request_callback)
attached; handler exceptions propagate to consume.  Storing a task under an
unhashable id raises TypeError (an ordinary Exception for consume). -/
def handle_request (dispatcher : Dispatcher) (msg_id : Json) (method : Json)
    (params : Option Json) (st : EndpointState) : Except Raised StepResult :=
  match dispLookup dispatcher method with
  | .error (.keyError _) => .error (.rpc (JsonRpcMethodNotFound.of method))
  | .error _ => .error (.other "TypeError")
  | .ok handler =>
    match handler params with
    | .raiseRpc e => .error (.rpc e)
    | .raiseOther n => .error (.other n)
    | .retVal v =>
      .ok ⟨st, [[("jsonrpc", Json.str "2.0"), ("id", msg_id), ("result", v)]], []⟩
    | .retAsync o =>
      match msg_id with
      | .arr _ => .error (.other "TypeError")
      | .obj _ => .error (.other "TypeError")
      | _ =>
        .ok ⟨{ st with
          client_request_futures := storeJ st.client_request_futures msg_id o }, [], []⟩

/-- How the task spawned for an inbound request finishes: cancelled, or run to
completion with its outcome. -/
inductive DoneTask where
  | cancelled
  | completed (o : Outcome)

/-- The done-callback Endpoint._request_callback installs on a spawned inbound
request task (endpoint.py 231-257).  It first pops the entry from
_client_request_futures.  For a CANCELLED task, `future.set_exception(...)` on
the already-done asyncio future raises InvalidStateError, so the callback dies
before any response message is built — nothing is emitted.  (Even without that
slip, on Python ≥ 3.8 `future.result()` would raise CancelledError, a
BaseException the `except Exception` clause does not catch.)  For a completed
task it emits exactly one result / typed-error / InternalError response. -/
def request_callback (request_id : Json) (d : DoneTask) (st : EndpointState) :
    Except PyErr StepResult :=
  let st1 := { st with
    client_request_futures := removeJ st.client_request_futures request_id }
  match d with
  | .cancelled => .error .invalidState
  | .completed (.ok v) =>
    .ok ⟨st1, [[("jsonrpc", Json.str "2.0"), ("id", request_id), ("result", v)]], []⟩
  | .completed (.rpcErr e) =>
    .ok ⟨st1, [[("jsonrpc", Json.str "2.0"), ("id", request_id),
                ("error", RpcError.to_dict e)]], []⟩
  | .completed (.exn n) =>
    .ok ⟨st1, [[("jsonrpc", Json.str "2.0"), ("id", request_id),
                ("error", RpcError.to_dict (JsonRpcInternalError.of n))]], []⟩

/-- Endpoint._handle_notification (endpoint.py 150-174).  The cancel method is
special-cased: `params['id']` raises TypeError when params is absent or not a
dict and KeyError when the key is missing, and neither is caught on this path.
Otherwise: unknown methods are logged and ignored; synchronous handler raises
are caught and logged; a callable handler result is spawned with a
logging-only callback — in every case nothing is emitted. -/
def handle_notification (dispatcher : Dispatcher) (method : Json)
    (params : Option Json) (st : EndpointState) : Except PyErr StepResult :=
  if jsonBEq method (Json.str "$/cancelRequest") then
    match params with
    | some (Json.obj kvs) =>
      match getKey kvs "id" with
      | some mid => handle_cancel_notification mid st
      | none => .error (.keyError "id")
    | _ => .error .typeError
  else
    match dispLookup dispatcher method with
    | .error (.keyError _) => .ok ⟨st, [], []⟩
    | .error e => .error e
    | .ok handler =>
      match handler params with
      | .raiseRpc _ => .ok ⟨st, [], []⟩
      | .raiseOther _ => .ok ⟨st, [], []⟩
      | .retVal _ => .ok ⟨st, [], []⟩
      | .retAsync _ => .ok ⟨st, [], []⟩

/-- The guard of Endpoint.consume (endpoint.py 118):
`'jsonrpc' not in message or message['jsonrpc'] != JSONRPC_VERSION`. -/
def jsonrpcBad (message : Message) : Bool :=
  match getKey message "jsonrpc" with
  | none => true
  | some v => !(jsonBEq v (Json.str "2.0"))

/-- Endpoint.consume (endpoint.py 112-148): route one inbound message.  A bad
jsonrpc field is logged and dropped; no id means notification; an id without a
method means response; id and method means request, with JsonRpcException and
generic exceptions from _handle_request answered as error responses.  Note the
try/except only wraps the request branch: exceptions from the notification and
response branches propagate to the caller. -/
def consume (dispatcher : Dispatcher) (message : Message) (st : EndpointState) :
    Except PyErr StepResult :=
  if jsonrpcBad message then .ok ⟨st, [], []⟩
  else
    match getKey message "id" with
    | none =>
      match getKey message "method" with
      | none => .error (.keyError "method")
      | some mv => handle_notification dispatcher mv (getVal message "params") st
    | some mid =>
      match getKey message "method" with
      | none => handle_response mid (getVal message "result") (getVal message "error") st
      | some _mv =>
        match handle_request dispatcher mid _mv (getVal message "params") st with
        | .ok r => .ok r
        | .error (.rpc e) =>
          .ok ⟨st, [[("jsonrpc", Json.str "2.0"), ("id", mid),
                     ("error", RpcError.to_dict e)]], []⟩
        | .error (.other n) =>
          .ok ⟨st, [[("jsonrpc", Json.str "2.0"), ("id", mid),
                     ("error", RpcError.to_dict (JsonRpcInternalError.of n))]], []⟩

/-- Completion paths of one inbound request's lifecycle, as the claims
enumerate them: everything settled synchronously inside consume; the spawned
task later completing (successfully or by raising); or a $/cancelRequest
notification arriving and the cancellation landing. -/
inductive ReqPath where
  | sync
  | taskDone
  | taskCancelled

/-- The complete sequence of messages the Endpoint hands to its consumer over
the lifecycle of one inbound request with id `mid` against a fresh endpoint:
consume the request message, then (for a pending task) either run the task to
completion and fire its done-callback, or consume a $/cancelRequest
notification for `mid` (whose cancel lands) and fire the done-callback of the
now-cancelled task. -/
def lifecycleOut (dispatcher : Dispatcher) (mid : Json) (method : String)
    (params : Option Json) (p : ReqPath) : List Message :=
  let reqMsg :=
    [("jsonrpc", Json.str "2.0"), ("id", mid), ("method", Json.str method)] ++
    (match params with
     | some pv => [("params", pv)]
     | none => [])
  match consume dispatcher reqMsg initState with
  | .error _ => []
  | .ok r1 =>
    match p with
    | .sync => r1.out
    | .taskDone =>
      match lookupJ r1.st.client_request_futures mid with
      | some o =>
        match request_callback mid (.completed o) r1.st with
        | .ok r2 => r1.out ++ r2.out
        | .error _ => r1.out
      | none => r1.out
    | .taskCancelled =>
      let cancelMsg : Message :=
        [("jsonrpc", Json.str "2.0"), ("method", Json.str "$/cancelRequest"),
         ("params", Json.obj [("id", mid)])]
      match consume dispatcher cancelMsg r1.st with
      | .ok r2 =>
        match request_callback mid .cancelled r2.st with
        | .ok r3 => r1.out ++ r2.out ++ r3.out
        | .error _ => r1.out ++ r2.out
      | .error _ => r1.out

/-- Whether a message is a response carrying id `mid`: it has that id and a
result or error member. -/
def isResponseTo (mid : Json) (m : Message) : Bool :=
  (match getKey m "id" with
   | some v => jsonBEq v mid
   | none => false) &&
  ((getKey m "result").isSome || (getKey m "error").isSome)

/-- Number of responses carrying id `mid` in an emission sequence. -/
def responseCount (mid : Json) (out : List Message) : Nat :=
  (out.filter (isResponseTo mid)).length

/-- Scenario S1 input: one well-formed frame followed by end-of-input. -/
def inputS1 : RFile :=
  ⟨strToBytes "Content-Length: 49\r\nContent-Type: application/vscode-jsonrpc; charset=utf8\r\n\r\n\x7b\"id\": \"hello\", \"method\": \"method\", \"params\": \x7b\x7d\x7d"⟩

/-- Scenario S2 input: well-formed headers, body that is not valid JSON. -/
def inputS2 : RFile := ⟨strToBytes "Content-Length: 8\r\n\r\n\x7bhello\x7d\x7d"⟩

/-- Scenario S3 input: garbage with no valid header block. -/
def inputS3 : RFile := ⟨strToBytes "Hello world"⟩

/-- The message of scenarios S1/S4:
\x7bid:"hello", method:"method", params:\x7b\x7d\x7d. -/
def helloMsg : Json :=
  Json.obj [("id", Json.str "hello"), ("method", Json.str "method"),
            ("params", Json.obj [])]

/-- Example handler: synchronous return of 1234. -/
def handlerSync : Option Json → HandlerBehavior := fun _ => .retVal (Json.num 1234)

/-- Example handler: synchronous raise of a typed RPC error. -/
def handlerRaiseTyped : Option Json → HandlerBehavior := fun _ => .raiseRpc JsonRpcInvalidParams

/-- Example handler: synchronous raise of an untyped exception. -/
def handlerRaiseOther : Option Json → HandlerBehavior := fun _ => .raiseOther "ValueError"

/-- Example handler: asynchronous success. -/
def handlerAsyncOk : Option Json → HandlerBehavior := fun _ => .retAsync (.ok (Json.num 1234))

/-- Example handler: asynchronous task raising a typed RPC error. -/
def handlerAsyncTyped : Option Json → HandlerBehavior := fun _ => .retAsync (.rpcErr JsonRpcInvalidParams)

/-- Example handler: asynchronous task raising an untyped exception. -/
def handlerAsyncExn : Option Json → HandlerBehavior := fun _ => .retAsync (.exn "ValueError")

/-! ## Theorems -/

/-- Updating the value under a present key is observed by a subsequent
lookup. -/
theorem lookupS_setS {α : Type} (kvs : List (String × α)) (k : String) (v : α)
    (h : (lookupS kvs k).isSome) : lookupS (setS kvs k v) k = some v := by
  induction kvs with
  | nil => simp [lookupS] at h
  | cons kv rest ih =>
    by_cases hk : kv.1 = k
    · simp [setS, hk, lookupS]
    · simp [setS, hk, lookupS] at h ⊢
      exact ih h

/-- C1: on every completion path of an inbound request the Endpoint emits
exactly one response carrying the request id — except the cancellation path.
When $/cancelRequest lands, _request_callback pops the map entry and then calls
future.set_exception on the already-cancelled asyncio future, which raises
InvalidStateError inside the done-callback, so NO response is emitted: the
final conjunct evaluates that completion path to zero responses, against the
claim's (and the spec state machine's) RequestCancelled response. -/
theorem C1_inbound_request_response_per_path :
    responseCount (Json.str "id") (lifecycleOut [("m", handlerSync)] (Json.str "id") "m" none .sync) = 1
  ∧ responseCount (Json.str "id") (lifecycleOut [("m", handlerRaiseTyped)] (Json.str "id") "m" none .sync) = 1
  ∧ responseCount (Json.str "id") (lifecycleOut [("m", handlerRaiseOther)] (Json.str "id") "m" none .sync) = 1
  ∧ responseCount (Json.str "id") (lifecycleOut [] (Json.str "id") "m" none .sync) = 1
  ∧ responseCount (Json.str "id") (lifecycleOut [("m", handlerAsyncOk)] (Json.str "id") "m" none .taskDone) = 1
  ∧ responseCount (Json.str "id") (lifecycleOut [("m", handlerAsyncTyped)] (Json.str "id") "m" none .taskDone) = 1
  ∧ responseCount (Json.str "id") (lifecycleOut [("m", handlerAsyncExn)] (Json.str "id") "m" none .taskDone) = 1
  ∧ responseCount (Json.str "id") (lifecycleOut [("m", handlerAsyncOk)] (Json.str "id") "m" none .taskCancelled) = 0 :=
  ⟨rfl, rfl, rfl, rfl, rfl, rfl, rfl, rfl⟩

/-- C2 counterexample: consuming the message \x7bjsonrpc:"2.0"\x7d — a
notification whose method is absent — raises KeyError('method') to the caller
(endpoint.py 125 reads message['method'] outside any try), refuting the claim
that Endpoint.consume never raises. -/
theorem C2_consume_keyerror_counterexample :
    consume [] [("jsonrpc", Json.str "2.0")] initState
      = .error (.keyError "method") := rfl

/-- C2 amended: consume returns normally (dropping the message) whenever the
jsonrpc field is missing or wrong; but a notification lacking `method` raises
KeyError('method'), a $/cancelRequest notification whose params lack `id`
raises KeyError('id'), and one with absent (or non-dict) params raises
TypeError. -/
theorem C2_consume_error_paths :
    (∀ dispatcher message st, jsonrpcBad message = true →
      consume dispatcher message st = .ok ⟨st, [], []⟩)
  ∧ (∀ dispatcher message st, jsonrpcBad message = false →
      getKey message "id" = none → getKey message "method" = none →
      consume dispatcher message st = .error (.keyError "method"))
  ∧ (∀ dispatcher st pk, getKey pk "id" = none →
      consume dispatcher [("jsonrpc", Json.str "2.0"),
        ("method", Json.str "$/cancelRequest"), ("params", Json.obj pk)] st
        = .error (.keyError "id"))
  ∧ (∀ dispatcher st,
      consume dispatcher [("jsonrpc", Json.str "2.0"),
        ("method", Json.str "$/cancelRequest")] st = .error PyErr.typeError) := by
  refine ⟨?_, ?_, ?_, ?_⟩
  · intro dispatcher message st h
    simp [consume, h]
  · intro dispatcher message st h h1 h2
    simp [consume, h, h1, h2]
  · intro dispatcher st pk h
    simp [consume, jsonrpcBad, getKey, getVal, jsonBEq, handle_notification, h]
  · intro dispatcher st
    simp [consume, jsonrpcBad, getKey, getVal, jsonBEq, handle_notification]

/-- C2 witness: the amended statement applied at concrete inputs. -/
theorem C2_consume_error_paths_witness :
    consume [] [("key", Json.str "value")] initState = .ok ⟨initState, [], []⟩
  ∧ consume [] [("jsonrpc", Json.str "2.0")] initState = .error (.keyError "method")
  ∧ consume [] [("jsonrpc", Json.str "2.0"), ("method", Json.str "$/cancelRequest"),
      ("params", Json.obj [])] initState = .error (.keyError "id")
  ∧ consume [] [("jsonrpc", Json.str "2.0"), ("method", Json.str "$/cancelRequest")]
      initState = .error PyErr.typeError :=
  ⟨C2_consume_error_paths.1 [] _ initState rfl,
   C2_consume_error_paths.2.1 [] _ initState rfl rfl rfl,
   C2_consume_error_paths.2.2.1 [] initState [] rfl,
   C2_consume_error_paths.2.2.2 [] initState⟩

/-- C3: with an id generator returning "id",
request("methodName", \x7bkey:"value"\x7d) emits exactly the expected request
message and records a pending future under "id"; consuming
\x7bjsonrpc:"2.0", id:"id", result:1234\x7d removes the record and resolves
that future to exactly 1234; consuming a response with any `error` object
completes the future with the corresponding typed RPC error
(RpcError.from_dict of the wire object).  The last conjunct marks the boundary
of that behaviour: an explicit error:null is None to `message.get('error')`,
so endpoint.py 269 (`error is not None`) takes the set_result branch and the
future resolves with None instead. -/
theorem C3_outbound_request_round_trip :
    (request "id" "methodName" (some (Json.obj [("key", Json.str "value")])) initState).out
      = [[("jsonrpc", Json.str "2.0"), ("id", Json.str "id"),
          ("method", Json.str "methodName"),
          ("params", Json.obj [("key", Json.str "value")])]]
  ∧ (request "id" "methodName" (some (Json.obj [("key", Json.str "value")])) initState).st.server_request_futures
      = [("id", FutureState.pending)]
  ∧ consume [] [("jsonrpc", Json.str "2.0"), ("id", Json.str "id"), ("result", Json.num 1234)]
      (request "id" "methodName" (some (Json.obj [("key", Json.str "value")])) initState).st
      = .ok ⟨initState, [], [("id", FutureState.resolved (Json.num 1234))]⟩
  ∧ (∀ kvs : List (String × Json),
      consume [] [("jsonrpc", Json.str "2.0"), ("id", Json.str "id"), ("error", Json.obj kvs)]
        (request "id" "methodName" (some (Json.obj [("key", Json.str "value")])) initState).st
        = .ok ⟨initState, [], [("id", FutureState.rejected (RpcError.from_dict (Json.obj kvs)))]⟩)
  ∧ consume [] [("jsonrpc", Json.str "2.0"), ("id", Json.str "id"), ("error", Json.null)]
      (request "id" "methodName" (some (Json.obj [("key", Json.str "value")])) initState).st
      = .ok ⟨initState, [], [("id", FutureState.resolved Json.null)]⟩ :=
  ⟨rfl, rfl, rfl, fun _ => rfl, rfl⟩

/-- C4 counterexample: after request("m") under id "id" and cancellation of the
returned future, the entry is STILL in _server_request_futures (now holding a
cancelled future) — _cancel_callback never pops it — and consuming the late
response \x7bjsonrpc:"2.0", id:"id", result:1234\x7d raises InvalidStateError
(set_result on a cancelled future) instead of being a silent no-op. -/
theorem C4_cancelled_late_response_counterexample :
    lookupS (cancelFuture "id" (request "id" "m" none initState).st).st.server_request_futures "id"
      = some FutureState.cancelled
  ∧ consume [] [("jsonrpc", Json.str "2.0"), ("id", Json.str "id"), ("result", Json.num 1234)]
      (cancelFuture "id" (request "id" "m" none initState).st).st
      = .error PyErr.invalidState := ⟨rfl, rfl⟩

/-- C4 amended: cancelling a pending outbound future leaves its entry in the
server-requests map (marked cancelled); consuming a late response bearing that
id pops the entry and attempts to complete the cancelled future, raising
InvalidStateError; only a response whose id is NOT in the map is a silent
no-op — logged and discarded without raising and without completing any
future. -/
theorem C4_cancelled_late_response :
    (∀ st s, lookupS st.server_request_futures s = some FutureState.pending →
      lookupS (cancelFuture s st).st.server_request_futures s = some FutureState.cancelled)
  ∧ (∀ st s result error,
      lookupS st.server_request_futures s = some FutureState.cancelled →
      handle_response (Json.str s) result error st = .error PyErr.invalidState)
  ∧ (∀ st s result error, lookupS st.server_request_futures s = none →
      handle_response (Json.str s) result error st = .ok ⟨st, [], []⟩) := by
  refine ⟨?_, ?_, ?_⟩
  · intro st s h
    simp [cancelFuture, h]
    exact lookupS_setS _ _ _ (by simp [h])
  · intro st s result error h
    simp [handle_response, h]
  · intro st s result error h
    simp [handle_response, h]

/-- C4 witness: the amended statement applied at concrete inputs. -/
theorem C4_cancelled_late_response_witness :
    lookupS (cancelFuture "id" (request "id" "m" none initState).st).st.server_request_futures "id"
      = some FutureState.cancelled
  ∧ handle_response (Json.str "id") (some (Json.num 1234)) none
      (cancelFuture "id" (request "id" "m" none initState).st).st
      = .error PyErr.invalidState
  ∧ handle_response (Json.str "zzz") (some (Json.num 1)) none initState
      = .ok ⟨initState, [], []⟩ :=
  ⟨C4_cancelled_late_response.1 (request "id" "m" none initState).st "id" rfl,
   C4_cancelled_late_response.2.1 (cancelFuture "id" (request "id" "m" none initState).st).st
     "id" (some (Json.num 1234)) none rfl,
   C4_cancelled_late_response.2.2 initState "zzz" (some (Json.num 1)) none rfl⟩

/-- C5: cancelling an outbound request future that is still pending makes the
done-callback emit exactly one $/cancelRequest notification of the form
\x7bjsonrpc:"2.0", method:"$/cancelRequest", params:\x7bid\x7d\x7d carrying
that request's id (the emission list is that singleton). -/
theorem C5_cancel_emits_one_notification (st : EndpointState) (s : String)
    (h : lookupS st.server_request_futures s = some FutureState.pending) :
    (cancelFuture s st).out =
      [[("jsonrpc", Json.str "2.0"), ("method", Json.str "$/cancelRequest"),
        ("params", Json.obj [("id", Json.str s)])]] := by
  simp [cancelFuture, h, notifyMessage]

/-- C5 witness: cancel right after request("m") with id generator "id". -/
theorem C5_cancel_emits_one_notification_witness :
    (cancelFuture "id" (request "id" "m" none initState).st).out =
      [[("jsonrpc", Json.str "2.0"), ("method", Json.str "$/cancelRequest"),
        ("params", Json.obj [("id", Json.str "id")])]] :=
  C5_cancel_emits_one_notification (request "id" "m" none initState).st "id" rfl

/-- C6: the synchronous JsonRpcStreamWriter.write (src/jsonrpc/streams.py)
emits exactly the Content-Length/Content-Type header followed by the JSON
body, with N the UTF-8 byte length of the body (last two conjuncts before the
final one: 9 characters but 10 bytes for a body containing a non-ASCII
character); the compact serialization of helloMsg has byte length 44, giving
the exact S4 frame.  The asyncio variant (src/pyls_jsonrpc/streams.py),
however, hands the already-computed json.dumps string to run_in_executor —
which expects a callable — so awaiting it raises TypeError, swallowed by the
broad except: the final conjunct records that it emits no bytes at all, against
the claim and the repository's own test_writer. -/
theorem C6_writer_frame_bytes :
    (∀ m : Json, writerWrite m =
      strToBytes ("Content-Length: " ++ toString (utf8Len (dumps m)) ++
        "\r\nContent-Type: application/vscode-jsonrpc; charset=utf8\r\n\r\n" ++ dumps m))
  ∧ writerWrite helloMsg =
      strToBytes "Content-Length: 44\r\nContent-Type: application/vscode-jsonrpc; charset=utf8\r\n\r\n\x7b\"id\":\"hello\",\"method\":\"method\",\"params\":\x7b\x7d\x7d"
  ∧ utf8Len (dumps helloMsg) = 44
  ∧ (dumps (Json.obj [("k", Json.str "é")])).length = 9
  ∧ utf8Len (dumps (Json.obj [("k", Json.str "é")])) = 10
  ∧ asyncWriterWrite helloMsg = [] :=
  ⟨fun _ => rfl, rfl, rfl, rfl, rfl, rfl⟩

/-- C7: a request for a method the dispatcher has no entry for is answered with
exactly one error response carrying the request id and a MethodNotFound error
(code -32601); a notification for an unknown (non-cancel) method only logs a
warning and emits no message at all. -/
theorem C7_method_not_found_behaviour (dispatcher : Dispatcher)
    (st : EndpointState) (mid : Json) (m : String)
    (h : lookupS dispatcher m = none) (hm : m ≠ "$/cancelRequest") :
    consume dispatcher [("jsonrpc", Json.str "2.0"), ("id", mid), ("method", Json.str m)] st
      = .ok ⟨st, [[("jsonrpc", Json.str "2.0"), ("id", mid),
                   ("error", RpcError.to_dict (JsonRpcMethodNotFound.of (Json.str m)))]], []⟩
  ∧ (JsonRpcMethodNotFound.of (Json.str m)).code = -32601
  ∧ consume dispatcher [("jsonrpc", Json.str "2.0"), ("method", Json.str m)] st
      = .ok ⟨st, [], []⟩ := by
  refine ⟨?_, rfl, ?_⟩
  · simp [consume, jsonrpcBad, getKey, getVal, jsonBEq, handle_request, dispLookup, h]
  · simp [consume, jsonrpcBad, getKey, getVal, jsonBEq, handle_notification, hm, dispLookup, h]

/-- C7 witness: the empty dispatcher and method "methodName". -/
theorem C7_method_not_found_behaviour_witness :
    consume [] [("jsonrpc", Json.str "2.0"), ("id", Json.str "id"),
        ("method", Json.str "methodName")] initState
      = .ok ⟨initState, [[("jsonrpc", Json.str "2.0"), ("id", Json.str "id"),
          ("error", RpcError.to_dict (JsonRpcMethodNotFound.of (Json.str "methodName")))]], []⟩
  ∧ (JsonRpcMethodNotFound.of (Json.str "methodName")).code = -32601
  ∧ consume [] [("jsonrpc", Json.str "2.0"), ("method", Json.str "methodName")] initState
      = .ok ⟨initState, [], []⟩ :=
  C7_method_not_found_behaviour [] initState (Json.str "id") "methodName" rfl (by decide)

set_option maxRecDepth 100000 in
/-- C8: driving listen over the single well-formed S1 frame followed by
end-of-input invokes the consumer exactly once, with the decoded object
\x7bid:"hello", method:"method", params:\x7b\x7d\x7d. -/
theorem C8_reader_happy_path : listen inputS1 = .ok [helloMsg] := rfl

/-- C9: on the S2 frame (body is not valid JSON) and on the S3 bytes (no valid
header block) listen never invokes the consumer and returns without raising. -/
theorem C9_reader_error_paths :
    listen inputS2 = .ok [] ∧ listen inputS3 = .ok [] := ⟨rfl, rfl⟩

/-- C10: consuming a message that carries an outstanding outbound request id,
no `method`, and neither `result` nor `error` is classified as a response: it
resolves the pending future successfully with null — exactly as if result:null
had been received — and removes the id from the server-requests map. -/
theorem C10_response_without_result_or_error (dispatcher : Dispatcher)
    (st : EndpointState) (s : String)
    (h : lookupS st.server_request_futures s = some FutureState.pending) :
    consume dispatcher [("jsonrpc", Json.str "2.0"), ("id", Json.str s)] st
      = .ok ⟨{ st with server_request_futures := removeS st.server_request_futures s }, [],
             [(s, FutureState.resolved Json.null)]⟩
  ∧ consume dispatcher [("jsonrpc", Json.str "2.0"), ("id", Json.str s)] st
      = consume dispatcher [("jsonrpc", Json.str "2.0"), ("id", Json.str s),
          ("result", Json.null)] st := by
  constructor <;> simp [consume, jsonrpcBad, getKey, getVal, jsonBEq, handle_response, h]

/-- C10 witness: the id-only message consumed right after request("m"). -/
theorem C10_response_without_result_or_error_witness :
    consume [] [("jsonrpc", Json.str "2.0"), ("id", Json.str "id")]
        (request "id" "m" none initState).st
      = .ok ⟨{ (request "id" "m" none initState).st with
               server_request_futures :=
                 removeS (request "id" "m" none initState).st.server_request_futures "id" }, [],
             [("id", FutureState.resolved Json.null)]⟩ :=
  (C10_response_without_result_or_error [] (request "id" "m" none initState).st "id" rfl).1
